import Mathlib

/-!
# Verification of the exif-fov-estimation computation core

Shallow embedding of the metadata-to-FOV pipeline implemented in
`src/compute.js` and the `analyze` entry point of `src/index.js`.

JavaScript numeric metadata fields are modelled as `Option ℚ` (`none` is the
`null` produced by the metadata extractor for a missing/unparseable tag).
JavaScript truthiness (`null` and `0` are falsy) is modelled by `jsTruthy`,
and the coercion of `null` to `0` inside arithmetic by `jsToNum`.
Transcendental parts (`Math.atan`, `Math.sqrt`, `Math.PI`) are modelled over
`ℝ` with `Real.arctan`, `Real.sqrt` and `Real.pi`.
-/

namespace ExifFov

/-- A JavaScript numeric field: either `null` or a number (modelled in `ℚ`). -/
abbrev JSNum := Option ℚ

/-- JavaScript truthiness of a numeric field: `null` and `0` are falsy. -/
def jsTruthy : JSNum → Bool
  | none => false
  | some x => decide (x ≠ 0)

/-- JavaScript coercion of a numeric field used in arithmetic: `null` coerces to `0`. -/
def jsToNum (v : JSNum) : ℚ := v.getD 0

/-- The flat metadata record consumed by the core (output of `extractExif`
in `src/exif.js`): every field except the always-defaulted `orientation`
is a number or `null`. -/
structure Meta where
  width : JSNum
  height : JSNum
  orientation : ℚ
  focalLength : JSNum
  focalLengthIn35mm : JSNum
  scaleFactor35efl : JSNum
  focalPlaneXRes : JSNum
  focalPlaneYRes : JSNum
  focalPlaneUnit : JSNum
  focusDistance : JSNum

/-- `SENSOR_WIDTH_35MM` from `src/compute.js`. -/
def SENSOR_WIDTH_35MM : ℚ := 36

/-- `SENSOR_HEIGHT_35MM` from `src/compute.js`. -/
def SENSOR_HEIGHT_35MM : ℚ := 24

/-- The sparse lookup object `FOCAL_PLANE_UNIT_MM` from `src/compute.js`
(`none` models a key miss, i.e. `undefined`). -/
def FOCAL_PLANE_UNIT_MM (u : ℚ) : Option ℚ :=
  if u = 2 then some 25.4
  else if u = 3 then some 10
  else if u = 4 then some 1
  else if u = 5 then some 0.001
  else none

/-- `focalPlaneUnitMul` from `src/compute.js`:
`if (unitTag === 1) return null; return FOCAL_PLANE_UNIT_MM[unitTag] ?? FOCAL_PLANE_UNIT_MM[2]`. -/
def focalPlaneUnitMul (unitTag : JSNum) : Option ℚ :=
  if unitTag = some 1 then none
  else some ((unitTag.bind FOCAL_PLANE_UNIT_MM).getD 25.4)

/-- `closeFocusCorrectionFactor` from `src/compute.js`. Both arguments may be
`null` in the caller (`analyze` passes `meta.focalLength` unchecked); in JS
arithmetic `null` coerces to `0`. -/
def closeFocusCorrectionFactor (focalLengthMm focusDistM : JSNum) : ℚ :=
  if ¬ jsTruthy focusDistM ∨ jsToNum focusDistM ≤ 0 then 1
  else
    let d := 1000 * jsToNum focusDistM - jsToNum focalLengthMm
    if d ≤ 0 then 1 else 1 + jsToNum focalLengthMm / d

/-- `adjustForOrientation` from `src/compute.js`: swap when `5 <= orientation <= 8`.
The returned pair is `(width, height)` of the JS object literal. -/
def adjustForOrientation (width height orientation : ℚ) : ℚ × ℚ :=
  if 5 ≤ orientation ∧ orientation ≤ 8 then (height, width) else (width, height)

/-- The `{ sensorWidth, sensorHeight }` object built by
`computeActualSensorDimensions`; each component may be `null`. -/
structure SensorDims where
  sensorWidth : JSNum
  sensorHeight : JSNum

/-- `computeActualSensorDimensions` from `src/compute.js`. -/
def computeActualSensorDimensions (meta : Meta) : Option SensorDims :=
  match focalPlaneUnitMul meta.focalPlaneUnit with
  | none => none
  | some unitMul =>
    let sensorWidth : JSNum :=
      if jsTruthy meta.focalPlaneXRes && jsTruthy meta.width then
        some (jsToNum meta.width / jsToNum meta.focalPlaneXRes * unitMul)
      else none
    let sensorHeight : JSNum :=
      if jsTruthy meta.focalPlaneYRes && jsTruthy meta.height then
        some (jsToNum meta.height / jsToNum meta.focalPlaneYRes * unitMul)
      else none
    if sensorWidth = none ∧ sensorHeight = none then none
    else some { sensorWidth := sensorWidth, sensorHeight := sensorHeight }

/-- `f35mmFromFocalPlane` from `src/compute.js`. -/
def f35mmFromFocalPlane (meta : Meta) : Option ℚ :=
  if jsTruthy meta.focalLength then
    match computeActualSensorDimensions meta with
    | none => none
    | some sensor =>
      let cropFactor0 : Option ℚ :=
        if jsTruthy sensor.sensorWidth then
          some (SENSOR_WIDTH_35MM / jsToNum sensor.sensorWidth)
        else none
      let cropFactor1 : Option ℚ :=
        if jsTruthy sensor.sensorHeight then
          match cropFactor0 with
          | none => some (SENSOR_HEIGHT_35MM / jsToNum sensor.sensorHeight)
          | some c => some ((c + SENSOR_HEIGHT_35MM / jsToNum sensor.sensorHeight) / 2)
        else cropFactor0
      match cropFactor1 with
      | none => none
      | some c => some (jsToNum meta.focalLength * c)
  else none

/-- The message of the `Error` thrown by `getF35mm` in `src/compute.js`. -/
def resolutionErrorMessage : String :=
  "Cannot determine 35 mm-equivalent focal length. The image must contain either FocalLengthIn35mmFormat, FocalLength + ScaleFactor35efl, or FocalLength + FocalPlaneResolution tags. FocalPlaneResolutionUnit must not be 1 (no-unit)."

/-- `getF35mm` from `src/compute.js`; the thrown `Error` is modelled as
`Except.error` carrying the message. -/
def getF35mm (meta : Meta) : Except String ℚ :=
  if jsTruthy meta.focalLengthIn35mm then
    Except.ok (jsToNum meta.focalLengthIn35mm)
  else if jsTruthy meta.focalLength && jsTruthy meta.scaleFactor35efl then
    Except.ok (jsToNum meta.focalLength * jsToNum meta.scaleFactor35efl)
  else
    match f35mmFromFocalPlane meta with
    | some fromPlane => Except.ok fromPlane
    | none => Except.error resolutionErrorMessage

/-! ## Basic facts about the JavaScript value model -/

theorem jsTruthy_eq_true_iff (v : JSNum) :
    jsTruthy v = true ↔ ∃ x, v = some x ∧ x ≠ 0 := by
  cases v <;> simp [jsTruthy]

theorem jsTruthy_none : jsTruthy none = false := rfl

theorem jsToNum_some (x : ℚ) : jsToNum (some x) = x := rfl

/-! ## Close-focus correction (claim C5) -/

/-- C5 (amended): branch-by-branch behaviour of `closeFocusCorrectionFactor`:
result is exactly `1` when `focusDistance` is null/missing or `≤ 0`, exactly
`1` when the image-side distance `d = 1000·focusDistance − focalLength` is
`≤ 0`, and `1 + focalLength / d` otherwise; the numeric test points
`(100, 1.18) ≈ 1.0926 ± 0.001` and `(100, 100) ≈ 1.001 ± 0.001` hold; and the
result is `≥ 1` whenever `focalLength ≥ 0` (the unrestricted "always ≥ 1.0"
of the original claim fails for negative focal lengths, see the
counterexample). -/
theorem closeFocusCorrectionFactor_spec :
    (∀ fl : ℚ, closeFocusCorrectionFactor (some fl) none = 1) ∧
    (∀ fl fd : ℚ, fd ≤ 0 → closeFocusCorrectionFactor (some fl) (some fd) = 1) ∧
    (∀ fl fd : ℚ, 0 < fd → 1000 * fd - fl ≤ 0 →
      closeFocusCorrectionFactor (some fl) (some fd) = 1) ∧
    (∀ fl fd : ℚ, 0 < fd → 0 < 1000 * fd - fl →
      closeFocusCorrectionFactor (some fl) (some fd) = 1 + fl / (1000 * fd - fl)) ∧
    (∀ (fl : ℚ) (fd : JSNum), 0 ≤ fl → 1 ≤ closeFocusCorrectionFactor (some fl) fd) ∧
    |closeFocusCorrectionFactor (some 100) (some 1.18) - 1.0926| ≤ 0.001 ∧
    |closeFocusCorrectionFactor (some 100) (some 100) - 1.001| ≤ 0.001 := by
  refine ⟨?_, ?_, ?_, ?_, ?_, ?_, ?_⟩
  · intro fl
    simp [closeFocusCorrectionFactor, jsTruthy]
  · intro fl fd hfd
    by_cases h0 : fd = 0
    · simp [closeFocusCorrectionFactor, jsTruthy, h0]
    · simp [closeFocusCorrectionFactor, jsTruthy, jsToNum, h0, hfd]
  · intro fl fd hfd hd
    have h0 : fd ≠ 0 := ne_of_gt hfd
    simp [closeFocusCorrectionFactor, jsTruthy, jsToNum, h0, not_le.mpr hfd, hd]
  · intro fl fd hfd hd
    have h0 : fd ≠ 0 := ne_of_gt hfd
    simp [closeFocusCorrectionFactor, jsTruthy, jsToNum, h0, not_le.mpr hfd, not_le.mpr hd]
  · intro fl fd hfl
    unfold closeFocusCorrectionFactor
    split
    · exact le_refl 1
    · rename_i hcond
      push_neg at hcond
      by_cases hd : 1000 * jsToNum fd - jsToNum (some fl) ≤ 0
      · simp [hd]
      · push_neg at hd
        have hq : 0 ≤ jsToNum (some fl) / (1000 * jsToNum fd - jsToNum (some fl)) :=
          div_nonneg (by simpa [jsToNum] using hfl) (le_of_lt hd)
        simp only [not_le.mpr hd, if_false]
        linarith
  · have hval : closeFocusCorrectionFactor (some 100) (some 1.18) = 59 / 54 := by
      norm_num [closeFocusCorrectionFactor, jsTruthy, jsToNum]
    rw [hval, abs_le]
    constructor <;> norm_num
  · have hval : closeFocusCorrectionFactor (some 100) (some 100) = 1000 / 999 := by
      norm_num [closeFocusCorrectionFactor, jsTruthy, jsToNum]
    rw [hval, abs_le]
    constructor <;> norm_num

/-- Witness for C5: the thin-lens branch at the claim's test point
`(100 mm, 1.18 m)`. -/
theorem closeFocusCorrectionFactor_spec_witness :
    closeFocusCorrectionFactor (some 100) (some 1.18) = 1 + 100 / (1000 * 1.18 - 100) :=
  closeFocusCorrectionFactor_spec.2.2.2.1 100 1.18 (by norm_num) (by norm_num)

/-- Counterexample for C5 as stated: for a negative focal length the factor
drops below `1` (here `closeFocusCorrectionFactor(-100, 1) = 10/11`). -/
theorem closeFocusCorrectionFactor_lt_one_counterexample :
    closeFocusCorrectionFactor (some (-100)) (some 1) < 1 := by
  norm_num [closeFocusCorrectionFactor, jsTruthy, jsToNum]

/-! ## Resolver strategy 1 (claim C1) -/

/-- C1: whenever `focalLengthIn35mm` carries a usable (nonzero) value, the
resolver returns it directly, whatever the other fields hold — in particular
also when `focalLength × scaleFactor35efl` would give a different value. -/
theorem getF35mm_direct_tag (meta : Meta) (x : ℚ)
    (hx : meta.focalLengthIn35mm = some x) (hx0 : x ≠ 0) :
    getF35mm meta = Except.ok x := by
  have ht : jsTruthy (some x) = true := by
    simp [jsTruthy, hx0]
  simp [getF35mm, hx, ht, jsToNum]

/-- Record used by the C1 witness: `focalLengthIn35mm = 70` disagrees with
`focalLength × scaleFactor35efl = 100`. -/
def metaC1 : Meta :=
  { width := some 6000, height := some 4000, orientation := 1,
    focalLength := some 50, focalLengthIn35mm := some 70,
    scaleFactor35efl := some 2, focalPlaneXRes := none, focalPlaneYRes := none,
    focalPlaneUnit := none, focusDistance := none }

/-- Witness for C1: strategy 1 beats the disagreeing strategy-2 product. -/
theorem getF35mm_direct_tag_witness : getF35mm metaC1 = Except.ok 70 :=
  getF35mm_direct_tag metaC1 70 rfl (by norm_num)

/-! ## Helper lemmas about the focal-plane derivation -/

theorem jsTruthy_jsToNum_ne (v : JSNum) (h : jsTruthy v = true) : jsToNum v ≠ 0 := by
  rcases (jsTruthy_eq_true_iff v).mp h with ⟨x, rfl, hx⟩
  simpa [jsToNum] using hx

theorem jsTruthy_some_ne (x : ℚ) (hx : x ≠ 0) : jsTruthy (some x) = true := by
  simp [jsTruthy, hx]

theorem focalPlaneUnitMul_pos (u : JSNum) (m : ℚ)
    (h : focalPlaneUnitMul u = some m) : 0 < m := by
  unfold focalPlaneUnitMul at h
  split at h
  · exact Option.noConfusion h
  · have hm : (u.bind FOCAL_PLANE_UNIT_MM).getD 25.4 = m := by
      exact Option.some.inj h
    rcases u with _ | x
    · rw [← hm]
      norm_num
    · rw [← hm]
      simp only [Option.some_bind]
      unfold FOCAL_PLANE_UNIT_MM
      split_ifs <;> norm_num

theorem focalPlaneUnitMul_ne_none_iff (u : JSNum) :
    focalPlaneUnitMul u = none ↔ u = some 1 := by
  unfold focalPlaneUnitMul
  split_ifs with h <;> simp [h]

/-! ## Focal-plane derivation matches its specification (claim C2) -/

/-- Modelled from the spec: the unit-multiplier resolution exactly as the
claim words it — no value for unit code 1, `25.4` for 2 (inch), `10` for 3
(cm), `1` for 4 (mm), `0.001` for 5 (µm), and the inch default `25.4` for any
other or missing code. -/
def unitMulSpec (u : JSNum) : Option ℚ :=
  if u = some 1 then none
  else if u = some 2 then some 25.4
  else if u = some 3 then some 10
  else if u = some 4 then some 1
  else if u = some 5 then some 0.001
  else some 25.4

/-- Modelled from the spec: the focal-plane derivation exactly as the claim
words it — actual sensor dimension per axis is `(pixels / resolution) ×
multiplier` when both are available, per-axis crop factor is
`reference / actual`, both axes are averaged when both resolve, a single
axis is used alone, and the result is `focalLength × cropFactor`. -/
def f35mmFromFocalPlaneSpec (meta : Meta) : Option ℚ :=
  match unitMulSpec meta.focalPlaneUnit with
  | none => none
  | some mul =>
    let actualWidth : Option ℚ :=
      if jsTruthy meta.focalPlaneXRes && jsTruthy meta.width then
        some (jsToNum meta.width / jsToNum meta.focalPlaneXRes * mul)
      else none
    let actualHeight : Option ℚ :=
      if jsTruthy meta.focalPlaneYRes && jsTruthy meta.height then
        some (jsToNum meta.height / jsToNum meta.focalPlaneYRes * mul)
      else none
    match actualWidth, actualHeight with
    | none, none => none
    | some w, none => some (jsToNum meta.focalLength * (SENSOR_WIDTH_35MM / w))
    | none, some h => some (jsToNum meta.focalLength * (SENSOR_HEIGHT_35MM / h))
    | some w, some h =>
      some (jsToNum meta.focalLength *
        ((SENSOR_WIDTH_35MM / w + SENSOR_HEIGHT_35MM / h) / 2))

theorem focalPlaneUnitMul_eq_spec (u : JSNum) : focalPlaneUnitMul u = unitMulSpec u := by
  rcases u with _ | x
  · simp [focalPlaneUnitMul, unitMulSpec]
  · unfold focalPlaneUnitMul unitMulSpec FOCAL_PLANE_UNIT_MM
    simp only [Option.bind_some, Option.some.injEq]
    split_ifs <;> simp_all

/-- Explicit shape of `computeActualSensorDimensions` once the unit
multiplier resolved: an axis dimension is produced exactly when its
resolution tag and pixel dimension are both truthy, and the result is `null`
when neither axis is produced. -/
theorem computeActualSensorDimensions_cases (meta : Meta) (m : ℚ)
    (hu : focalPlaneUnitMul meta.focalPlaneUnit = some m) :
    computeActualSensorDimensions meta =
      if (jsTruthy meta.focalPlaneXRes && jsTruthy meta.width)
          || (jsTruthy meta.focalPlaneYRes && jsTruthy meta.height) then
        some { sensorWidth :=
                 if jsTruthy meta.focalPlaneXRes && jsTruthy meta.width then
                   some (jsToNum meta.width / jsToNum meta.focalPlaneXRes * m)
                 else none,
               sensorHeight :=
                 if jsTruthy meta.focalPlaneYRes && jsTruthy meta.height then
                   some (jsToNum meta.height / jsToNum meta.focalPlaneYRes * m)
                 else none }
      else none := by
  unfold computeActualSensorDimensions
  rw [hu]
  cases hX : (jsTruthy meta.focalPlaneXRes && jsTruthy meta.width) <;>
    cases hY : (jsTruthy meta.focalPlaneYRes && jsTruthy meta.height) <;>
      simp

/-- C2: for every record reaching the focal-plane derivation with a usable
`focalLength`, the source derivation agrees with the claim's description
(`f35mmFromFocalPlaneSpec`): unit multiplier table with inch default and
failure on code 1, per-axis actual dimensions, per-axis crop factors
averaged when both axes resolve, single axis used alone, final value
`focalLength × cropFactor`, and no value when no axis resolves. -/
theorem f35mmFromFocalPlane_matches_spec (meta : Meta)
    (h : jsTruthy meta.focalLength = true) :
    f35mmFromFocalPlane meta = f35mmFromFocalPlaneSpec meta := by
  unfold f35mmFromFocalPlane f35mmFromFocalPlaneSpec
  rw [h, ← focalPlaneUnitMul_eq_spec]
  cases hu : focalPlaneUnitMul meta.focalPlaneUnit with
  | none => simp [computeActualSensorDimensions, hu]
  | some m =>
    have hm : m ≠ 0 := ne_of_gt (focalPlaneUnitMul_pos _ _ hu)
    rw [computeActualSensorDimensions_cases meta m hu]
    cases hX : (jsTruthy meta.focalPlaneXRes && jsTruthy meta.width) with
    | false =>
      cases hY : (jsTruthy meta.focalPlaneYRes && jsTruthy meta.height) with
      | false => simp
      | true =>
        obtain ⟨hr, hh⟩ : jsTruthy meta.focalPlaneYRes = true ∧ jsTruthy meta.height = true := by
          simpa using hY
        have hhv : jsToNum meta.height / jsToNum meta.focalPlaneYRes * m ≠ 0 :=
          mul_ne_zero
            (div_ne_zero (jsTruthy_jsToNum_ne _ hh) (jsTruthy_jsToNum_ne _ hr)) hm
        simp [jsTruthy_some_ne _ hhv, jsTruthy_none, jsToNum_some]
    | true =>
      obtain ⟨hr, hw⟩ : jsTruthy meta.focalPlaneXRes = true ∧ jsTruthy meta.width = true := by
        simpa using hX
      have hwv : jsToNum meta.width / jsToNum meta.focalPlaneXRes * m ≠ 0 :=
        mul_ne_zero
          (div_ne_zero (jsTruthy_jsToNum_ne _ hw) (jsTruthy_jsToNum_ne _ hr)) hm
      cases hY : (jsTruthy meta.focalPlaneYRes && jsTruthy meta.height) with
      | false => simp [jsTruthy_some_ne _ hwv, jsTruthy_none, jsToNum_some]
      | true =>
        obtain ⟨hr', hh⟩ : jsTruthy meta.focalPlaneYRes = true ∧ jsTruthy meta.height = true := by
          simpa using hY
        have hhv : jsToNum meta.height / jsToNum meta.focalPlaneYRes * m ≠ 0 :=
          mul_ne_zero
            (div_ne_zero (jsTruthy_jsToNum_ne _ hh) (jsTruthy_jsToNum_ne _ hr')) hm
        simp [jsTruthy_some_ne _ hwv, jsTruthy_some_ne _ hhv, jsToNum_some]

/-- Record used by the C2 witness: derivation through the Y axis only,
cm-unit (code 3): sensor height `4000 / 2000 × 10 = 20 mm`, crop factor
`24 / 20`, result `50 × 1.2 = 60`. -/
def metaC2 : Meta :=
  { width := some 6000, height := some 4000, orientation := 1,
    focalLength := some 50, focalLengthIn35mm := none,
    scaleFactor35efl := none, focalPlaneXRes := none,
    focalPlaneYRes := some 2000, focalPlaneUnit := some 3,
    focusDistance := none }

/-- Witness for C2 at a concrete record. -/
theorem f35mmFromFocalPlane_matches_spec_witness :
    f35mmFromFocalPlane metaC2 = f35mmFromFocalPlaneSpec metaC2 :=
  f35mmFromFocalPlane_matches_spec metaC2 (by decide)

/-! ## Error behaviour of the resolver (claim C3) -/

/-- The focal-plane derivation yields nothing exactly when `focalLength` is
unusable, the unit code is 1, or neither axis has both a truthy resolution
tag and a truthy pixel dimension. -/
theorem f35mmFromFocalPlane_eq_none_iff (meta : Meta) :
    f35mmFromFocalPlane meta = none ↔
      (jsTruthy meta.focalLength = false ∨ meta.focalPlaneUnit = some 1 ∨
        ((jsTruthy meta.focalPlaneXRes && jsTruthy meta.width) = false ∧
         (jsTruthy meta.focalPlaneYRes && jsTruthy meta.height) = false)) := by
  cases hfl : jsTruthy meta.focalLength with
  | false => simp [f35mmFromFocalPlane, hfl]
  | true =>
    rw [f35mmFromFocalPlane, hfl]
    cases hu : focalPlaneUnitMul meta.focalPlaneUnit with
    | none =>
      have h1 : meta.focalPlaneUnit = some 1 := (focalPlaneUnitMul_ne_none_iff _).mp hu
      simp only [computeActualSensorDimensions, hu]
      simp [h1]
    | some m =>
      have hm : m ≠ 0 := ne_of_gt (focalPlaneUnitMul_pos _ _ hu)
      have h1 : ¬ meta.focalPlaneUnit = some 1 := by
        intro hq
        have hnone := (focalPlaneUnitMul_ne_none_iff meta.focalPlaneUnit).mpr hq
        rw [hnone] at hu
        exact Option.noConfusion hu
      rw [computeActualSensorDimensions_cases meta m hu]
      cases hX : (jsTruthy meta.focalPlaneXRes && jsTruthy meta.width) with
      | false =>
        cases hY : (jsTruthy meta.focalPlaneYRes && jsTruthy meta.height) with
        | false => simp [h1]
        | true =>
          obtain ⟨hr, hh⟩ : jsTruthy meta.focalPlaneYRes = true ∧ jsTruthy meta.height = true := by
            simpa using hY
          have hhv : jsToNum meta.height / jsToNum meta.focalPlaneYRes * m ≠ 0 :=
            mul_ne_zero
              (div_ne_zero (jsTruthy_jsToNum_ne _ hh) (jsTruthy_jsToNum_ne _ hr)) hm
          simp [jsTruthy_some_ne _ hhv, jsTruthy_none, h1]
      | true =>
        obtain ⟨hr, hw⟩ : jsTruthy meta.focalPlaneXRes = true ∧ jsTruthy meta.width = true := by
          simpa using hX
        have hwv : jsToNum meta.width / jsToNum meta.focalPlaneXRes * m ≠ 0 :=
          mul_ne_zero
            (div_ne_zero (jsTruthy_jsToNum_ne _ hw) (jsTruthy_jsToNum_ne _ hr)) hm
        cases hY : (jsTruthy meta.focalPlaneYRes && jsTruthy meta.height) with
        | false => simp [jsTruthy_some_ne _ hwv, jsTruthy_none, h1]
        | true =>
          obtain ⟨hr', hh⟩ : jsTruthy meta.focalPlaneYRes = true ∧ jsTruthy meta.height = true := by
            simpa using hY
          have hhv : jsToNum meta.height / jsToNum meta.focalPlaneYRes * m ≠ 0 :=
            mul_ne_zero
              (div_ne_zero (jsTruthy_jsToNum_ne _ hh) (jsTruthy_jsToNum_ne _ hr')) hm
          simp [jsTruthy_some_ne _ hwv, jsTruthy_some_ne _ hhv, h1]

/-- C3: `getF35mm` fails exactly when all three strategies yield nothing —
`focalLengthIn35mm` unusable, not both `focalLength` and `scaleFactor35efl`
usable, and the focal-plane derivation unable to produce a value
(`focalLength` unusable, unit code 1, or no axis resolvable) — and every
failure carries the fixed message naming the required tag combinations. -/
theorem getF35mm_error_iff (meta : Meta) :
    (getF35mm meta = Except.error resolutionErrorMessage ↔
      (jsTruthy meta.focalLengthIn35mm = false ∧
       (jsTruthy meta.focalLength && jsTruthy meta.scaleFactor35efl) = false ∧
       (jsTruthy meta.focalLength = false ∨ meta.focalPlaneUnit = some 1 ∨
         ((jsTruthy meta.focalPlaneXRes && jsTruthy meta.width) = false ∧
          (jsTruthy meta.focalPlaneYRes && jsTruthy meta.height) = false)))) ∧
    (∀ e : String, getF35mm meta = Except.error e → e = resolutionErrorMessage) := by
  constructor
  · rw [getF35mm]
    cases h35 : jsTruthy meta.focalLengthIn35mm with
    | true => simp
    | false =>
      cases h2 : (jsTruthy meta.focalLength && jsTruthy meta.scaleFactor35efl) with
      | true => simp
      | false =>
        cases hp : f35mmFromFocalPlane meta with
        | none =>
          have hcond := (f35mmFromFocalPlane_eq_none_iff meta).mp hp
          simpa using hcond
        | some f =>
          have hcontra : ¬(jsTruthy meta.focalLength = false ∨ meta.focalPlaneUnit = some 1 ∨
              ((jsTruthy meta.focalPlaneXRes && jsTruthy meta.width) = false ∧
               (jsTruthy meta.focalPlaneYRes && jsTruthy meta.height) = false)) := by
            intro hcond
            have hn := (f35mmFromFocalPlane_eq_none_iff meta).mpr hcond
            rw [hp] at hn
            exact Option.noConfusion hn
          simpa using hcontra
  · intro e he
    unfold getF35mm at he
    split at he
    · exact absurd he (by simp)
    · split at he
      · exact absurd he (by simp)
      · split at he
        · exact absurd he (by simp)
        · exact (Except.error.inj he).symm

/-- Record with no usable resolution data at all, for the C3 witness. -/
def metaEmpty : Meta :=
  { width := some 6000, height := some 4000, orientation := 1,
    focalLength := none, focalLengthIn35mm := none, scaleFactor35efl := none,
    focalPlaneXRes := none, focalPlaneYRes := none, focalPlaneUnit := none,
    focusDistance := none }

/-- Witness for C3: the empty record fails with the fixed message. -/
theorem getF35mm_error_iff_witness :
    getF35mm metaEmpty = Except.error resolutionErrorMessage :=
  (getF35mm_error_iff metaEmpty).1.mpr (by decide)

/-! ## Sign of the resolved focal length (claim C4) -/

/-- Counterexample for C4 as stated: a record carrying a negative
`focalLengthIn35mm` makes `getF35mm` return that negative value unchanged,
so the resolver does not guarantee positivity over all records. -/
def metaC4 : Meta :=
  { width := some 6000, height := some 4000, orientation := 1,
    focalLength := none, focalLengthIn35mm := some (-10),
    scaleFactor35efl := none, focalPlaneXRes := none, focalPlaneYRes := none,
    focalPlaneUnit := none, focusDistance := none }

/-- C4 counterexample: `getF35mm` returns `-10`, a negative value, without
raising an error. -/
theorem getF35mm_neg_counterexample :
    getF35mm metaC4 = Except.ok (-10) ∧ (-10 : ℚ) < 0 := by
  constructor
  · norm_num [getF35mm, metaC4, jsTruthy, jsToNum]
  · norm_num

/-- One metadata field is nonnegative when it carries a number. -/
def fieldNonneg (v : JSNum) : Bool :=
  match v with
  | none => true
  | some x => decide (0 ≤ x)

/-- All numeric fields entering the resolver are nonnegative when present. -/
def metaNonneg (meta : Meta) : Bool :=
  fieldNonneg meta.width && fieldNonneg meta.height && fieldNonneg meta.focalLength &&
    fieldNonneg meta.focalLengthIn35mm && fieldNonneg meta.scaleFactor35efl &&
    fieldNonneg meta.focalPlaneXRes && fieldNonneg meta.focalPlaneYRes

theorem fieldNonneg_truthy_pos (v : JSNum) (h1 : fieldNonneg v = true)
    (h2 : jsTruthy v = true) : 0 < jsToNum v := by
  rcases v with _ | x
  · exact absurd h2 (by simp [jsTruthy])
  · have hx0 : x ≠ 0 := by simpa [jsTruthy] using h2
    have hx1 : 0 ≤ x := by simpa [fieldNonneg] using h1
    have : 0 < x := lt_of_le_of_ne hx1 (Ne.symm hx0)
    simpa [jsToNum] using this

/-- The focal-plane derivation yields a positive value on records whose
present fields are nonnegative. -/
theorem f35mmFromFocalPlane_pos (meta : Meta)
    (hw : fieldNonneg meta.width = true) (hh : fieldNonneg meta.height = true)
    (hfl : fieldNonneg meta.focalLength = true)
    (hxr : fieldNonneg meta.focalPlaneXRes = true)
    (hyr : fieldNonneg meta.focalPlaneYRes = true)
    (f : ℚ) (hp : f35mmFromFocalPlane meta = some f) : 0 < f := by
  rw [f35mmFromFocalPlane] at hp
  cases htfl : jsTruthy meta.focalLength with
  | false =>
    rw [htfl] at hp
    exact absurd hp (by simp)
  | true =>
    rw [htfl] at hp
    simp only [if_true] at hp
    have hflpos : 0 < jsToNum meta.focalLength := fieldNonneg_truthy_pos _ hfl htfl
    cases hu : focalPlaneUnitMul meta.focalPlaneUnit with
    | none =>
      rw [computeActualSensorDimensions, hu] at hp
      exact absurd hp (by simp)
    | some m =>
      have hmpos : 0 < m := focalPlaneUnitMul_pos _ _ hu
      rw [computeActualSensorDimensions_cases meta m hu] at hp
      cases hX : (jsTruthy meta.focalPlaneXRes && jsTruthy meta.width) with
      | true =>
        obtain ⟨hr, hwt⟩ : jsTruthy meta.focalPlaneXRes = true ∧ jsTruthy meta.width = true := by
          simpa using hX
        have hwv : 0 < jsToNum meta.width / jsToNum meta.focalPlaneXRes * m :=
          mul_pos
            (div_pos (fieldNonneg_truthy_pos _ hw hwt) (fieldNonneg_truthy_pos _ hxr hr)) hmpos
        have hcx : 0 < SENSOR_WIDTH_35MM / (jsToNum meta.width / jsToNum meta.focalPlaneXRes * m) :=
          div_pos (by norm_num [SENSOR_WIDTH_35MM]) hwv
        rw [hX] at hp
        cases hY : (jsTruthy meta.focalPlaneYRes && jsTruthy meta.height) with
        | true =>
          obtain ⟨hr', hht⟩ : jsTruthy meta.focalPlaneYRes = true ∧ jsTruthy meta.height = true := by
            simpa using hY
          have hhv : 0 < jsToNum meta.height / jsToNum meta.focalPlaneYRes * m :=
            mul_pos
              (div_pos (fieldNonneg_truthy_pos _ hh hht) (fieldNonneg_truthy_pos _ hyr hr')) hmpos
          have hcy : 0 < SENSOR_HEIGHT_35MM / (jsToNum meta.height / jsToNum meta.focalPlaneYRes * m) :=
            div_pos (by norm_num [SENSOR_HEIGHT_35MM]) hhv
          rw [hY] at hp
          simp [jsTruthy_some_ne _ (ne_of_gt hwv),
            jsTruthy_some_ne _ (ne_of_gt hhv), jsToNum_some] at hp
          rw [← hp]
          have hsum := div_pos (add_pos hcx hcy) (by norm_num : (0:ℚ) < 2)
          exact mul_pos hflpos hsum
        | false =>
          rw [hY] at hp
          simp [jsTruthy_some_ne _ (ne_of_gt hwv), jsTruthy_none, jsToNum_some] at hp
          rw [← hp]
          exact mul_pos hflpos hcx
      | false =>
        rw [hX] at hp
        cases hY : (jsTruthy meta.focalPlaneYRes && jsTruthy meta.height) with
        | false =>
          rw [hY] at hp
          exact absurd hp (by simp)
        | true =>
          obtain ⟨hr', hht⟩ : jsTruthy meta.focalPlaneYRes = true ∧ jsTruthy meta.height = true := by
            simpa using hY
          have hhv : 0 < jsToNum meta.height / jsToNum meta.focalPlaneYRes * m :=
            mul_pos
              (div_pos (fieldNonneg_truthy_pos _ hh hht) (fieldNonneg_truthy_pos _ hyr hr')) hmpos
          have hcy : 0 < SENSOR_HEIGHT_35MM / (jsToNum meta.height / jsToNum meta.focalPlaneYRes * m) :=
            div_pos (by norm_num [SENSOR_HEIGHT_35MM]) hhv
          rw [hY] at hp
          simp [jsTruthy_some_ne _ (ne_of_gt hhv), jsTruthy_none, jsToNum_some] at hp
          rw [← hp]
          exact mul_pos hflpos hcy

/-- C4 (amended): on every record whose numeric fields are nonnegative when
present, `getF35mm` either fails with the `ResolutionError` message or
returns a strictly positive focal length; the unrestricted claim fails on
records carrying negative tag values (see the counterexample). -/
theorem getF35mm_pos (meta : Meta) (h : metaNonneg meta = true) :
    getF35mm meta = Except.error resolutionErrorMessage ∨
      ∃ f, getF35mm meta = Except.ok f ∧ 0 < f := by
  have h' := h
  simp only [metaNonneg, Bool.and_eq_true] at h'
  obtain ⟨⟨⟨⟨⟨⟨hw, hh⟩, hfl⟩, h35⟩, hsf⟩, hxr⟩, hyr⟩ := h'
  cases ht35 : jsTruthy meta.focalLengthIn35mm with
  | true =>
    right
    refine ⟨jsToNum meta.focalLengthIn35mm, by simp [getF35mm, ht35], ?_⟩
    exact fieldNonneg_truthy_pos _ h35 ht35
  | false =>
    cases ht2 : (jsTruthy meta.focalLength && jsTruthy meta.scaleFactor35efl) with
    | true =>
      obtain ⟨hflt, hsft⟩ : jsTruthy meta.focalLength = true ∧
          jsTruthy meta.scaleFactor35efl = true := by simpa using ht2
      right
      refine ⟨jsToNum meta.focalLength * jsToNum meta.scaleFactor35efl,
        by simp [getF35mm, ht35, ht2], ?_⟩
      exact mul_pos (fieldNonneg_truthy_pos _ hfl hflt) (fieldNonneg_truthy_pos _ hsf hsft)
    | false =>
      cases hp : f35mmFromFocalPlane meta with
      | none =>
        left
        simp [getF35mm, ht35, ht2, hp]
      | some f =>
        right
        refine ⟨f, by simp [getF35mm, ht35, ht2, hp], ?_⟩
        exact f35mmFromFocalPlane_pos meta hw hh hfl hxr hyr f hp

/-- Record for the C4 witness: positive fields resolved through strategy 2. -/
def metaC4pos : Meta :=
  { width := some 6000, height := some 4000, orientation := 1,
    focalLength := some 50, focalLengthIn35mm := none,
    scaleFactor35efl := some 2, focalPlaneXRes := none, focalPlaneYRes := none,
    focalPlaneUnit := none, focusDistance := none }

/-- Witness for the amended C4 at a concrete nonnegative record. -/
theorem getF35mm_pos_witness :
    metaNonneg metaC4pos = true ∧
      (getF35mm metaC4pos = Except.error resolutionErrorMessage ∨
        ∃ f, getF35mm metaC4pos = Except.ok f ∧ 0 < f) :=
  ⟨by decide, getF35mm_pos metaC4pos (by decide)⟩

/-! ## Orientation adjustment (claim C7) -/

/-- C7: for every width, height and every (integer) orientation code,
`adjustForOrientation` swaps the dimensions exactly for codes 5, 6, 7, 8 and
returns them unchanged for every other integer, including 1–4 and anything
outside 1–8; being a total function it never fails. -/
theorem adjustForOrientation_spec (w h : ℚ) (o : ℤ) :
    adjustForOrientation w h (o : ℚ) =
      if o = 5 ∨ o = 6 ∨ o = 7 ∨ o = 8 then (h, w) else (w, h) := by
  unfold adjustForOrientation
  by_cases h58 : o = 5 ∨ o = 6 ∨ o = 7 ∨ o = 8
  · have hq : 5 ≤ (o : ℚ) ∧ (o : ℚ) ≤ 8 := by
      rcases h58 with h | h | h | h <;> subst h <;> norm_num
    simp [hq, h58]
  · have hq : ¬(5 ≤ (o : ℚ) ∧ (o : ℚ) ≤ 8) := by
      rintro ⟨h1, h2⟩
      have h1' : (5 : ℤ) ≤ o := by exact_mod_cast h1
      have h2' : o ≤ (8 : ℤ) := by exact_mod_cast h2
      exact h58 (by omega)
    simp [hq, h58]

/-! ## FOV and pixel focal length over the reals -/

/-- `SENSOR_DIAG_35MM` from `src/compute.js`: `Math.sqrt(36 ** 2 + 24 ** 2)`. -/
noncomputable def SENSOR_DIAG_35MM : ℝ := Real.sqrt (36 ^ 2 + 24 ^ 2)

/-- `rad2deg` from `src/compute.js`. -/
noncomputable def rad2deg (r : ℝ) : ℝ := r * 180 / Real.pi

/-- The `{ hfov, vfov, dfov }` object returned by `computeFov`. -/
structure Fov where
  hfov : ℝ
  vfov : ℝ
  dfov : ℝ

/-- `computeFov` from `src/compute.js`. -/
noncomputable def computeFov (f35mm : ℝ) : Fov :=
  { hfov := rad2deg (2 * Real.arctan ((SENSOR_WIDTH_35MM : ℝ) / (2 * f35mm)))
    vfov := rad2deg (2 * Real.arctan ((SENSOR_HEIGHT_35MM : ℝ) / (2 * f35mm)))
    dfov := rad2deg (2 * Real.arctan (SENSOR_DIAG_35MM / (2 * f35mm))) }

/-- `computeDiagonalPixelFocalLength` from `src/compute.js`. -/
noncomputable def computeDiagonalPixelFocalLength (f35mm width height : ℝ) : ℝ :=
  f35mm / SENSOR_DIAG_35MM * Real.sqrt (width ^ 2 + height ^ 2)

/-! ## Elementary polynomial bounds for `Real.arctan`

Alternating-series lower and upper bounds for `arctan` on `[0, ∞)`, proved
by the derivative of the difference being an even power over `1 + x²`. -/

/-- Degree-15 alternating Taylor polynomial of `arctan` (a lower bound on
`[0, ∞)`). -/
noncomputable def atanP (x : ℝ) : ℝ :=
  x - x ^ 3 / 3 + x ^ 5 / 5 - x ^ 7 / 7 + x ^ 9 / 9 - x ^ 11 / 11 + x ^ 13 / 13 - x ^ 15 / 15

/-- Degree-17 alternating Taylor polynomial of `arctan` (an upper bound on
`[0, ∞)`). -/
noncomputable def atanQ (x : ℝ) : ℝ := atanP x + x ^ 17 / 17

theorem hasDerivAt_atanP (x : ℝ) :
    HasDerivAt atanP
      (1 - x ^ 2 + x ^ 4 - x ^ 6 + x ^ 8 - x ^ 10 + x ^ 12 - x ^ 14) x := by
  have h1 : HasDerivAt (fun y : ℝ => y) 1 x := hasDerivAt_id x
  have h3 : HasDerivAt (fun y : ℝ => y ^ 3) (3 * x ^ 2) x := by
    simpa using hasDerivAt_pow 3 x
  have h5 : HasDerivAt (fun y : ℝ => y ^ 5) (5 * x ^ 4) x := by
    simpa using hasDerivAt_pow 5 x
  have h7 : HasDerivAt (fun y : ℝ => y ^ 7) (7 * x ^ 6) x := by
    simpa using hasDerivAt_pow 7 x
  have h9 : HasDerivAt (fun y : ℝ => y ^ 9) (9 * x ^ 8) x := by
    simpa using hasDerivAt_pow 9 x
  have h11 : HasDerivAt (fun y : ℝ => y ^ 11) (11 * x ^ 10) x := by
    simpa using hasDerivAt_pow 11 x
  have h13 : HasDerivAt (fun y : ℝ => y ^ 13) (13 * x ^ 12) x := by
    simpa using hasDerivAt_pow 13 x
  have h15 : HasDerivAt (fun y : ℝ => y ^ 15) (15 * x ^ 14) x := by
    simpa using hasDerivAt_pow 15 x
  have h := ((((((h1.sub (h3.div_const 3)).add (h5.div_const 5)).sub
    (h7.div_const 7)).add (h9.div_const 9)).sub (h11.div_const 11)).add
    (h13.div_const 13)).sub (h15.div_const 15)
  convert h using 1
  ring

theorem hasDerivAt_atanQ (x : ℝ) :
    HasDerivAt atanQ
      (1 - x ^ 2 + x ^ 4 - x ^ 6 + x ^ 8 - x ^ 10 + x ^ 12 - x ^ 14 + x ^ 16) x := by
  have h17 : HasDerivAt (fun y : ℝ => y ^ 17) (17 * x ^ 16) x := by
    simpa using hasDerivAt_pow 17 x
  have h := (hasDerivAt_atanP x).add (h17.div_const 17)
  convert h using 1
  ring

theorem hasDerivAt_arctan_sub_atanP (x : ℝ) :
    HasDerivAt (fun y => Real.arctan y - atanP y) (x ^ 16 / (1 + x ^ 2)) x := by
  have h := (Real.hasDerivAt_arctan x).sub (hasDerivAt_atanP x)
  convert h using 1
  have hne : (1 : ℝ) + x ^ 2 ≠ 0 := by positivity
  field_simp
  ring

theorem hasDerivAt_atanQ_sub_arctan (x : ℝ) :
    HasDerivAt (fun y => atanQ y - Real.arctan y) (x ^ 18 / (1 + x ^ 2)) x := by
  have h := (hasDerivAt_atanQ x).sub (Real.hasDerivAt_arctan x)
  convert h using 1
  have hne : (1 : ℝ) + x ^ 2 ≠ 0 := by positivity
  field_simp
  ring

theorem atanP_le_arctan (x : ℝ) (hx : 0 ≤ x) : atanP x ≤ Real.arctan x := by
  have hmono : Monotone (fun y => Real.arctan y - atanP y) := by
    apply monotone_of_deriv_nonneg
    · intro y
      exact (hasDerivAt_arctan_sub_atanP y).differentiableAt
    · intro y
      rw [(hasDerivAt_arctan_sub_atanP y).deriv]
      positivity
  have h0 := hmono hx
  simp only at h0
  have e0 : Real.arctan 0 - atanP 0 = 0 := by
    rw [Real.arctan_zero]
    norm_num [atanP]
  linarith

theorem arctan_le_atanQ (x : ℝ) (hx : 0 ≤ x) : Real.arctan x ≤ atanQ x := by
  have hmono : Monotone (fun y => atanQ y - Real.arctan y) := by
    apply monotone_of_deriv_nonneg
    · intro y
      exact (hasDerivAt_atanQ_sub_arctan y).differentiableAt
    · intro y
      rw [(hasDerivAt_atanQ_sub_arctan y).deriv]
      positivity
  have h0 := hmono hx
  simp only at h0
  have e0 : atanQ 0 - Real.arctan 0 = 0 := by
    rw [Real.arctan_zero]
    norm_num [atanQ, atanP]
  linarith

/-! ## Numeric field-of-view bounds (claim C8) -/

theorem sqrt_1872_bounds :
    (43.266 : ℝ) ≤ Real.sqrt 1872 ∧ Real.sqrt 1872 ≤ 43.267 := by
  constructor
  · exact (Real.le_sqrt (by norm_num) (by norm_num)).mpr (by norm_num)
  · exact Real.sqrt_le_iff.mpr ⟨by norm_num, by norm_num⟩

theorem SENSOR_DIAG_35MM_eq : SENSOR_DIAG_35MM = Real.sqrt 1872 := by
  unfold SENSOR_DIAG_35MM
  norm_num

/-- Turn rational bounds on an arctan value into a degree interval of
half-width `0.1` around `c`. -/
theorem rad2deg_double_bounds (a lo hi c : ℝ) (hc : 0.1 ≤ c)
    (hlo : lo ≤ a) (hhi : a ≤ hi)
    (h1 : (c - 0.1) * 3.141593 ≤ 360 * lo)
    (h2 : 360 * hi ≤ (c + 0.1) * 3.141592) :
    |rad2deg (2 * a) - c| ≤ 0.1 := by
  have hπ1 := Real.pi_gt_d6
  have hπ2 := Real.pi_lt_d6
  have hπpos := Real.pi_pos
  unfold rad2deg
  have hlow : c - 0.1 ≤ 2 * a * 180 / Real.pi := by
    rw [le_div_iff₀ hπpos]
    calc (c - 0.1) * Real.pi
        ≤ (c - 0.1) * 3.141593 :=
          mul_le_mul_of_nonneg_left (le_of_lt hπ2) (by linarith)
      _ ≤ 360 * lo := h1
      _ ≤ 360 * a := by linarith
      _ = 2 * a * 180 := by ring
  have hup : 2 * a * 180 / Real.pi ≤ c + 0.1 := by
    rw [div_le_iff₀ hπpos]
    calc 2 * a * 180 = 360 * a := by ring
      _ ≤ 360 * hi := by linarith
      _ ≤ (c + 0.1) * 3.141592 := h2
      _ ≤ (c + 0.1) * Real.pi :=
          mul_le_mul_of_nonneg_left (le_of_lt hπ1) (by linarith)
  rw [abs_le]
  constructor <;> linarith

theorem arctan_36_100_bounds :
    (0.34555 : ℝ) ≤ Real.arctan (36 / 100) ∧ Real.arctan (36 / 100) ≤ 0.34556 := by
  constructor
  · calc (0.34555 : ℝ) ≤ atanP (36 / 100) := by norm_num [atanP]
      _ ≤ Real.arctan (36 / 100) := atanP_le_arctan _ (by norm_num)
  · calc Real.arctan (36 / 100) ≤ atanQ (36 / 100) := arctan_le_atanQ _ (by norm_num)
      _ ≤ 0.34556 := by norm_num [atanQ, atanP]

theorem arctan_24_100_bounds :
    (0.23554 : ℝ) ≤ Real.arctan (24 / 100) ∧ Real.arctan (24 / 100) ≤ 0.23555 := by
  constructor
  · calc (0.23554 : ℝ) ≤ atanP (24 / 100) := by norm_num [atanP]
      _ ≤ Real.arctan (24 / 100) := atanP_le_arctan _ (by norm_num)
  · calc Real.arctan (24 / 100) ≤ atanQ (24 / 100) := arctan_le_atanQ _ (by norm_num)
      _ ≤ 0.23555 := by norm_num [atanQ, atanP]

theorem arctan_3_4_bounds :
    (0.6431 : ℝ) ≤ Real.arctan (3 / 4) ∧ Real.arctan (3 / 4) ≤ 0.6437 := by
  constructor
  · calc (0.6431 : ℝ) ≤ atanP (3 / 4) := by norm_num [atanP]
      _ ≤ Real.arctan (3 / 4) := atanP_le_arctan _ (by norm_num)
  · calc Real.arctan (3 / 4) ≤ atanQ (3 / 4) := arctan_le_atanQ _ (by norm_num)
      _ ≤ 0.6437 := by norm_num [atanQ, atanP]

theorem arctan_diag_bounds :
    (0.40833 : ℝ) ≤ Real.arctan (Real.sqrt 1872 / 100) ∧
      Real.arctan (Real.sqrt 1872 / 100) ≤ 0.40836 := by
  obtain ⟨hs1, hs2⟩ := sqrt_1872_bounds
  have hlo : (43266 / 100000 : ℝ) ≤ Real.sqrt 1872 / 100 := by
    rw [le_div_iff₀ (by norm_num : (0:ℝ) < 100)]
    calc (43266 / 100000 : ℝ) * 100 = 43.266 := by norm_num
      _ ≤ Real.sqrt 1872 := hs1
  have hhi : Real.sqrt 1872 / 100 ≤ 43267 / 100000 := by
    rw [div_le_iff₀ (by norm_num : (0:ℝ) < 100)]
    calc Real.sqrt 1872 ≤ 43.267 := hs2
      _ = (43267 / 100000 : ℝ) * 100 := by norm_num
  constructor
  · calc (0.40833 : ℝ) ≤ atanP (43266 / 100000) := by norm_num [atanP]
      _ ≤ Real.arctan (43266 / 100000) := atanP_le_arctan _ (by norm_num)
      _ ≤ Real.arctan (Real.sqrt 1872 / 100) := Real.arctan_strictMono.monotone hlo
  · calc Real.arctan (Real.sqrt 1872 / 100)
        ≤ Real.arctan (43267 / 100000) := Real.arctan_strictMono.monotone hhi
      _ ≤ atanQ (43267 / 100000) := arctan_le_atanQ _ (by norm_num)
      _ ≤ 0.40836 := by norm_num [atanQ, atanP]

/-- C8: `computeFov` returns exactly the three `2·atan(dimension/(2f))`
angles converted to degrees, with sensor width 36, height 24 and diagonal
`√(36² + 24²)`; numerically, `computeFov 50 ≈ (39.6°, 27.0°, 46.8°)` and
`computeFov 24` has `hfov ≈ 73.74°`, all within `±0.1°`. -/
theorem computeFov_spec :
    (∀ f : ℝ, computeFov f =
      { hfov := rad2deg (2 * Real.arctan (36 / (2 * f)))
        vfov := rad2deg (2 * Real.arctan (24 / (2 * f)))
        dfov := rad2deg (2 * Real.arctan (Real.sqrt (36 ^ 2 + 24 ^ 2) / (2 * f))) }) ∧
    |(computeFov 50).hfov - 39.6| ≤ 0.1 ∧
    |(computeFov 50).vfov - 27.0| ≤ 0.1 ∧
    |(computeFov 50).dfov - 46.8| ≤ 0.1 ∧
    |(computeFov 24).hfov - 73.74| ≤ 0.1 := by
  have hform : ∀ f : ℝ, computeFov f =
      { hfov := rad2deg (2 * Real.arctan (36 / (2 * f)))
        vfov := rad2deg (2 * Real.arctan (24 / (2 * f)))
        dfov := rad2deg (2 * Real.arctan (Real.sqrt (36 ^ 2 + 24 ^ 2) / (2 * f))) } := by
    intro f
    simp only [computeFov, SENSOR_DIAG_35MM]
    norm_num [SENSOR_WIDTH_35MM, SENSOR_HEIGHT_35MM]
  refine ⟨hform, ?_, ?_, ?_, ?_⟩
  · have e : (computeFov 50).hfov = rad2deg (2 * Real.arctan (36 / 100)) := by
      rw [hform 50]
      norm_num
    rw [e]
    exact rad2deg_double_bounds _ _ _ _ (by norm_num)
      arctan_36_100_bounds.1 arctan_36_100_bounds.2 (by norm_num) (by norm_num)
  · have e : (computeFov 50).vfov = rad2deg (2 * Real.arctan (24 / 100)) := by
      rw [hform 50]
      norm_num
    rw [e]
    exact rad2deg_double_bounds _ _ _ _ (by norm_num)
      arctan_24_100_bounds.1 arctan_24_100_bounds.2 (by norm_num) (by norm_num)
  · have e : (computeFov 50).dfov = rad2deg (2 * Real.arctan (Real.sqrt 1872 / 100)) := by
      rw [hform 50]
      norm_num
    rw [e]
    exact rad2deg_double_bounds _ _ _ _ (by norm_num)
      arctan_diag_bounds.1 arctan_diag_bounds.2 (by norm_num) (by norm_num)
  · have e : (computeFov 24).hfov = rad2deg (2 * Real.arctan (3 / 4)) := by
      rw [hform 24]
      norm_num
    rw [e]
    exact rad2deg_double_bounds _ _ _ _ (by norm_num)
      arctan_3_4_bounds.1 arctan_3_4_bounds.2 (by norm_num) (by norm_num)

/-! ## Rotation invariance of the pixel focal length (claim C9) -/

/-- C9: for all positive `f`, `W`, `H` the diagonal pixel focal length is
invariant under swapping the width and height arguments. -/
theorem computeDiagonalPixelFocalLength_swap (f W H : ℝ)
    (hf : 0 < f) (hW : 0 < W) (hH : 0 < H) :
    computeDiagonalPixelFocalLength f W H = computeDiagonalPixelFocalLength f H W := by
  unfold computeDiagonalPixelFocalLength
  rw [add_comm (W ^ 2)]

/-- Witness for C9 at the repository's own test point `(90, 6000, 4000)`. -/
theorem computeDiagonalPixelFocalLength_swap_witness :
    (0 : ℝ) < 90 ∧ (0 : ℝ) < 6000 ∧ (0 : ℝ) < 4000 ∧
      computeDiagonalPixelFocalLength 90 6000 4000 =
        computeDiagonalPixelFocalLength 90 4000 6000 :=
  ⟨by norm_num, by norm_num, by norm_num,
    computeDiagonalPixelFocalLength_swap 90 6000 4000
      (by norm_num) (by norm_num) (by norm_num)⟩

/-! ## The `analyze` entry point (`src/index.js`) -/

/-- The result object built by `analyze` in `src/index.js` (the `file` path
field merely echoes external input and is omitted). -/
structure AnalyzeResult where
  rawWidth : ℚ
  rawHeight : ℚ
  visualWidth : ℚ
  visualHeight : ℚ
  orientation : ℚ
  focalLength : JSNum
  focalLengthIn35mm : ℚ
  scaleFactor35efl : JSNum
  fPixelDiagonal : ℝ
  hfov : ℝ
  vfov : ℝ
  dfov : ℝ
  focusDistance : JSNum

/-- `analyze` from `src/index.js`, applied to an already-extracted metadata
record (`extractExif` is the external collaborator excluded from the core). -/
noncomputable def analyze (meta : Meta) (applyCloseFocusCorrection : Bool) :
    Except String AnalyzeResult :=
  (getF35mm meta).map (fun f35mm =>
    let rawWidth := jsToNum meta.width
    let rawHeight := jsToNum meta.height
    let visual := adjustForOrientation rawWidth rawHeight meta.orientation
    let isRotated : Bool := decide (5 ≤ meta.orientation ∧ meta.orientation ≤ 8)
    let corr : ℚ :=
      if applyCloseFocusCorrection then
        closeFocusCorrectionFactor meta.focalLength meta.focusDistance
      else 1
    let fov := computeFov (((f35mm * corr : ℚ) : ℝ))
    let hv : ℝ × ℝ := if isRotated then (fov.vfov, fov.hfov) else (fov.hfov, fov.vfov)
    { rawWidth := rawWidth
      rawHeight := rawHeight
      visualWidth := visual.1
      visualHeight := visual.2
      orientation := meta.orientation
      focalLength := meta.focalLength
      focalLengthIn35mm := f35mm
      scaleFactor35efl := meta.scaleFactor35efl
      fPixelDiagonal :=
        computeDiagonalPixelFocalLength ((f35mm : ℝ)) ((rawWidth : ℝ)) ((rawHeight : ℝ))
      hfov := hv.1
      vfov := hv.2
      dfov := fov.dfov
      focusDistance := meta.focusDistance })

/-- Replace only the orientation code of a record. -/
def setOrientation (meta : Meta) (o : ℚ) : Meta := { meta with orientation := o }

theorem getF35mm_setOrientation (meta : Meta) (o : ℚ) :
    getF35mm (setOrientation meta o) = getF35mm meta := rfl

/-! ## Pixel focal length is frame-independent (claim C6) -/

/-- C6: the `fPixelDiagonal` field of the `analyze` result is computed from
the uncorrected resolved 35mm-equivalent focal length and the raw
(pre-orientation) pixel dimensions: it does not change with the
`applyCloseFocusCorrection` option nor with the orientation code. -/
theorem analyze_fPixelDiagonal_invariant (meta : Meta) (o o' : ℚ) (b b' : Bool) :
    Except.map AnalyzeResult.fPixelDiagonal (analyze (setOrientation meta o) b) =
      Except.map AnalyzeResult.fPixelDiagonal (analyze (setOrientation meta o') b') ∧
    Except.map AnalyzeResult.fPixelDiagonal (analyze meta b) =
      Except.map
        (fun f : ℚ =>
          computeDiagonalPixelFocalLength ((f : ℝ)) ((jsToNum meta.width : ℝ))
            ((jsToNum meta.height : ℝ)))
        (getF35mm meta) := by
  constructor
  · cases hg : getF35mm meta with
    | error e =>
      have hg1 : getF35mm (setOrientation meta o) = Except.error e := by
        rw [getF35mm_setOrientation]
        exact hg
      have hg2 : getF35mm (setOrientation meta o') = Except.error e := by
        rw [getF35mm_setOrientation]
        exact hg
      simp only [analyze]
      rw [hg1, hg2]
      simp [Except.map]
    | ok f =>
      have hg1 : getF35mm (setOrientation meta o) = Except.ok f := by
        rw [getF35mm_setOrientation]
        exact hg
      have hg2 : getF35mm (setOrientation meta o') = Except.ok f := by
        rw [getF35mm_setOrientation]
        exact hg
      simp only [analyze]
      rw [hg1, hg2]
      simp [setOrientation, Except.map]
  · cases hg : getF35mm meta with
    | error e => simp [analyze, hg, Except.map]
    | ok f => simp [analyze, hg, Except.map]

/-! ## Absent focal length neutralises the correction (claim C10) -/

/-- C10: with the correction enabled on a record whose `focalLength` is null
but whose `focusDistance` is a positive number, the correction factor is
exactly `1` (the null focal length behaves as `0` in the thin-lens
arithmetic), the whole result equals the uncorrected one, and a record that
resolves still succeeds. -/
theorem analyze_correction_noop (meta : Meta) (fd : ℚ)
    (hfl : meta.focalLength = none) (hfd : meta.focusDistance = some fd)
    (hpos : 0 < fd) :
    closeFocusCorrectionFactor meta.focalLength meta.focusDistance = 1 ∧
    analyze meta true = analyze meta false ∧
    (∀ f : ℚ, getF35mm meta = Except.ok f → ∃ r, analyze meta true = Except.ok r) := by
  have h0 : fd ≠ 0 := ne_of_gt hpos
  have h1 : ¬ (fd ≤ 0) := not_le.mpr hpos
  have hcorr : closeFocusCorrectionFactor meta.focalLength meta.focusDistance = 1 := by
    rw [hfl, hfd]
    have h2 : ¬ (1000 * fd - jsToNum none ≤ 0) := by
      have hz : jsToNum (none : JSNum) = 0 := rfl
      rw [hz]
      linarith
    simp [closeFocusCorrectionFactor, jsTruthy, jsToNum, h0, h1, h2]
  refine ⟨hcorr, ?_, ?_⟩
  · cases hg : getF35mm meta with
    | error e => simp [analyze, hg, Except.map]
    | ok f =>
      simp only [analyze, hg, Except.map, hcorr]
      simp
  · intro f hg
    exact ⟨_, by unfold analyze; rw [hg]; rfl⟩

/-- Record for the C10 witness: resolution by `focalLengthIn35mm` alone,
null `focalLength`, positive `focusDistance`. -/
def metaC10 : Meta :=
  { width := some 6000, height := some 4000, orientation := 1,
    focalLength := none, focalLengthIn35mm := some 90,
    scaleFactor35efl := none, focalPlaneXRes := none, focalPlaneYRes := none,
    focalPlaneUnit := none, focusDistance := some 2 }

/-- Witness for C10 at a concrete record. -/
theorem analyze_correction_noop_witness :
    metaC10.focalLength = none ∧ metaC10.focusDistance = some 2 ∧ (0 : ℚ) < 2 ∧
      (closeFocusCorrectionFactor metaC10.focalLength metaC10.focusDistance = 1 ∧
       analyze metaC10 true = analyze metaC10 false ∧
       (∀ f : ℚ, getF35mm metaC10 = Except.ok f →
         ∃ r, analyze metaC10 true = Except.ok r)) :=
  ⟨rfl, rfl, by norm_num, analyze_correction_noop metaC10 2 rfl rfl (by norm_num)⟩

end ExifFov
